import Mathlib

/-!
# Verification of the AIOToolSuite tool registry / dynamic-dispatch layer

Shallow embedding of `src/lib/tools.utils.ts`, `src/lib/config/index.ts`,
`src/lib/config/text.tools.ts`, `src/types/toolTypes.ts`,
`src/types/categories.ts` / `src/types/categoryMeta.ts` and
`scripts/build-tools-public.ts`.

Modelling conventions:
* Tool implementations (`ToolLogic`, TypeScript `(...args) => any`) are
  modelled as total functions `α → β` for abstract argument/result types
  `α`, `β`; every theorem is polymorphic in them.
* A JavaScript module object (the value a `logicLoader` promise resolves to)
  is modelled by `JSModule`: its `default` property (`none` when the property
  is absent or holds `undefined`/`null`, so that `??` falls through) and the
  list `Object.values(mod)` of its enumerable property values, in order.
* A module property value is either callable (`typeof v === 'function'`) or
  not; `ModVal` records exactly that distinction, which is all the dispatcher
  inspects.
* `throw new Error(msg)` is modelled as `Except.error msg`; asynchrony
  (`async`/`await`) is erased, which is faithful here because the dispatcher
  `await`s every promise it creates before doing anything else.
* The `Map<string, ToolLogic>` cache is modelled as an association list with
  JavaScript `Map` semantics: lookup finds the first (unique) binding,
  `set` overwrites an existing binding in place and otherwise appends.
* Each dispatcher call additionally reports how many times it invoked a
  descriptor `logicLoader` (0 or 1); this instrumentation corresponds to the
  load-counting stub loader the specification prescribes for testing and
  changes no behaviour.
-/

namespace ToolSuite

/-- A JavaScript value as far as the dispatcher can observe it: either a
callable (`typeof v === 'function'`) carrying a tool implementation, or a
non-callable value (a string, an object, `undefined`, ...). -/
inductive ModVal (α β : Type) where
  | fn (f : α → β)
  | nonfn

/-- A module-like object, as resolved by a `logicLoader`:
`defaultExport` is the `default` property (`none` when absent or nullish,
the cases in which `mod.default ?? x` evaluates `x`), and `values` is
`Object.values(mod)`, the enumerable property values in insertion order
(`undefined`-valued properties appear as `ModVal.nonfn`). -/
structure JSModule (α β : Type) where
  defaultExport : Option (ModVal α β)
  values : List (ModVal α β)

/-- A `logicLoader`: a zero-argument factory yielding a module-like object
(the `Promise` is erased, see the file header). -/
abbrev Loader (α β : Type) : Type := Unit → JSModule α β

/-- `InternalToolConfig` from `src/types/toolTypes.ts`: the full descriptor,
loader included.  Optional TypeScript fields (`minPlan?`, `weight?`,
`analyticsKey?`, `handlerPath?`, `synonyms?`) become `Option`s; the open
index signature `[k: string]: any` and the `props` hint object carry no
dispatcher-relevant structure and are modelled as an opaque list of
string pairs. -/
structure InternalToolConfig (α β : Type) where
  category : String
  slug : String
  title : String
  shortDescription : String
  icon : String
  template : String
  logicLoader : Loader α β
  props : List (String × String) := []
  keywords : List String := []
  id : String
  longDescription : String := ""
  tags : List String := []
  isHidden : Bool := false
  isExperimental : Bool := false
  minPlan : Option String := none
  weight : Option Nat := none
  analyticsKey : Option String := none
  handlerPath : Option String := none
  synonyms : Option (List String) := none

/-- `PublicToolConfig`: the runtime shape produced by `toPublicToolConfig`,
i.e. a descriptor with the four destructured-away fields `logicLoader`,
`synonyms`, `handlerPath`, `analyticsKey` removed and every other field kept
(`const { logicLoader, synonyms, handlerPath, analyticsKey, ...rest } = tool`). -/
structure PublicToolConfig where
  category : String
  slug : String
  title : String
  shortDescription : String
  icon : String
  template : String
  props : List (String × String)
  keywords : List String
  id : String
  longDescription : String
  tags : List String
  isHidden : Bool
  isExperimental : Bool
  minPlan : Option String
  weight : Option Nat
deriving DecidableEq, Repr

/-- `toPublicToolConfig` (`tools.utils.ts` lines 6–9): rest-spread of the
descriptor minus `logicLoader`, `synonyms`, `handlerPath`, `analyticsKey`. -/
def toPublicToolConfig {α β : Type} (tool : InternalToolConfig α β) : PublicToolConfig :=
  { category := tool.category
    slug := tool.slug
    title := tool.title
    shortDescription := tool.shortDescription
    icon := tool.icon
    template := tool.template
    props := tool.props
    keywords := tool.keywords
    id := tool.id
    longDescription := tool.longDescription
    tags := tool.tags
    isHidden := tool.isHidden
    isExperimental := tool.isExperimental
    minPlan := tool.minPlan
    weight := tool.weight }

/-- `getPublicTools` (`tools.utils.ts` lines 11–13), parametrised by the
registry `tools` it reads: `tools.map(toPublicToolConfig)`. -/
def getPublicTools {α β : Type} (tools : List (InternalToolConfig α β)) :
    List PublicToolConfig :=
  tools.map toPublicToolConfig

/-- The `_logicCache : Map<string, ToolLogic>` module-level singleton,
as an explicit association list from tool id to resolved implementation. -/
abbrev Cache (α β : Type) : Type := List (String × (α → β))

/-- `Map.prototype.get` (and `has`, via `isSome`): first binding for `id`. -/
def cacheGet {α β : Type} (c : Cache α β) (id : String) : Option (α → β) :=
  (c.find? (fun e => e.1 == id)).map (fun e => e.2)

/-- `Map.prototype.set`: overwrite an existing binding for `id` in place,
otherwise append a new binding. -/
def cacheSet {α β : Type} (c : Cache α β) (id : String) (f : α → β) : Cache α β :=
  if c.any (fun e => e.1 == id) then
    c.map (fun e => if e.1 == id then (id, f) else e)
  else
    c ++ [(id, f)]

/-- The callable-extraction step of `loadToolLogic`:
`mod.default ?? Object.values(mod)[0]` (`none` plays `undefined`). -/
def extractLogic {α β : Type} (mod : JSModule α β) : Option (ModVal α β) :=
  match mod.defaultExport with
  | some v => some v
  | none => mod.values.head?

/-- `loadToolLogic` (`tools.utils.ts` lines 16–23), with the cache passed
explicitly.  Returns the outcome (`Except.error` models `throw`), the cache
after the call, and the number of `logicLoader` invocations performed (the
load-counter instrumentation):

```ts
if (_logicCache.has(tool.id)) return _logicCache.get(tool.id)!;
const mod = await tool.logicLoader();
const fn: ToolLogic = mod.default ?? Object.values(mod)[0];
if (typeof fn !== 'function') throw new Error(`Tool logic not found for ${tool.id}`);
_logicCache.set(tool.id, fn);
return fn;
``` -/
def loadToolLogic {α β : Type} (tool : InternalToolConfig α β) (c : Cache α β) :
    Except String (α → β) × Cache α β × Nat :=
  match cacheGet c tool.id with
  | some f => (Except.ok f, c, 0)
  | none =>
    let mod := tool.logicLoader ()
    match extractLogic mod with
    | some (ModVal.fn f) => (Except.ok f, cacheSet c tool.id f, 1)
    | _ => (Except.error ("Tool logic not found for " ++ tool.id), c, 1)

/-- `runTool` (`tools.utils.ts` lines 25–30), parametrised by the registry and
the cache state; same result triple as `loadToolLogic`:

```ts
const tool = tools.find((t) => t.slug === slug);
if (!tool) throw new Error(`Tool not found: ${slug}`);
const logic = await loadToolLogic(tool);
return logic(...args);
``` -/
def runTool {α β : Type} (tools : List (InternalToolConfig α β)) (slug : String)
    (args : α) (c : Cache α β) : Except String β × Cache α β × Nat :=
  match tools.find? (fun t => t.slug == slug) with
  | none => (Except.error ("Tool not found: " ++ slug), c, 0)
  | some tool =>
    match loadToolLogic tool c with
    | (Except.ok logic, c2, n) => (Except.ok (logic args), c2, n)
    | (Except.error e, c2, n) => (Except.error e, c2, n)

/-! ## Category tables (`src/types/categories.ts`, `src/types/categoryMeta.ts`) -/

namespace categories

def SEO : String := "seo-tools"
def IMAGE : String := "image-tools"
def VIDEO : String := "video-tools"
def PDF : String := "pdf-tools"
def TEXT : String := "text-tools"
def AUDIO : String := "audio-tools"
def DEVELOPER : String := "developer-tools"
def SOCIAL : String := "social-tools"
def COLOR : String := "color-tools"
def SECURITY : String := "security-tools"
def MARKDOWN : String := "markdown-tools"
def ENCRYPTION : String := "encryption-tools"
def FILE : String := "file-tools"
def QRCODE : String := "qr-code-tools"
def BARCODE : String := "barcode-tools"
def UNIT_CONVERTER : String := "unit-converter"
def CURRENCY : String := "currency-tools"
def TIMESTAMP : String := "timestamp-tools"
def AI : String := "ai-tools"
def UX : String := "ux-tools"
def HTML : String := "html-tools"
def EMAIL : String := "email-tools"
def FAVICON : String := "favicon-tools"
def JSON : String := "json-tools"
def GIF : String := "gif-tools"

end categories

/-- `CategoryMeta` from `src/types/categoryMeta.ts`. -/
structure CategoryMeta where
  key : String
  title : String
  desc : String
  icon : String
  path : String
  color : String
deriving DecidableEq, Repr

/-- The static `categoryMeta` table (`src/types/categoryMeta.ts`), in source
order. -/
def categoryMeta : List CategoryMeta := [
  { key := categories.TEXT, title := "Text Tools",
    desc := "Utilities to transform and analyze text.",
    icon := "FaFont", path := "/text-tools", color := "text-blue-500" },
  { key := categories.SEO, title := "SEO Tools",
    desc := "Optimize your content for search engines.",
    icon := "FaSearch", path := "/seo-tools", color := "text-green-500" },
  { key := categories.IMAGE, title := "Image Tools",
    desc := "Edit, optimize, and convert images easily.",
    icon := "FaImage", path := "/image-tools", color := "text-yellow-500" },
  { key := categories.VIDEO, title := "Video Tools",
    desc := "Trim, compress, and convert videos.",
    icon := "FaVideo", path := "/video-tools", color := "text-red-500" },
  { key := categories.PDF, title := "PDF Tools",
    desc := "Split, merge, and convert PDF files.",
    icon := "FaFilePdf", path := "/pdf-tools", color := "text-pink-500" },
  { key := categories.AUDIO, title := "Audio Tools",
    desc := "Edit, compress, and convert audio files.",
    icon := "FaMusic", path := "/audio-tools", color := "text-indigo-500" },
  { key := categories.DEVELOPER, title := "Developer Tools",
    desc := "Handy utilities for developers and coders.",
    icon := "FaCode", path := "/developer-tools", color := "text-gray-600" },
  { key := categories.SOCIAL, title := "Social Tools",
    desc := "Tools for social media optimization.",
    icon := "FaShareAlt", path := "/social-tools", color := "text-pink-400" },
  { key := categories.COLOR, title := "Color Tools",
    desc := "Pick, convert, and generate colors.",
    icon := "FaPalette", path := "/color-tools", color := "text-amber-500" },
  { key := categories.SECURITY, title := "Security Tools",
    desc := "Check, secure, and analyze your data.",
    icon := "FaShieldAlt", path := "/security-tools", color := "text-red-600" },
  { key := categories.MARKDOWN, title := "Markdown Tools",
    desc := "Convert and preview markdown content.",
    icon := "FaMarkdown", path := "/markdown-tools", color := "text-gray-800" },
  { key := categories.ENCRYPTION, title := "Encryption Tools",
    desc := "Encrypt and decrypt your sensitive data.",
    icon := "FaLock", path := "/encryption-tools", color := "text-purple-700" },
  { key := categories.FILE, title := "File Tools",
    desc := "Manage and convert various file types.",
    icon := "FaFile", path := "/file-tools", color := "text-purple-500" },
  { key := categories.QRCODE, title := "QR Code Tools",
    desc := "Generate and scan QR codes easily.",
    icon := "FaQrcode", path := "/qr-code-tools", color := "text-green-600" },
  { key := categories.BARCODE, title := "Barcode Tools",
    desc := "Generate and read barcodes quickly.",
    icon := "FaBarcode", path := "/barcode-tools", color := "text-gray-700" },
  { key := categories.UNIT_CONVERTER, title := "Unit Converter",
    desc := "Convert units across categories instantly.",
    icon := "FaBalanceScale", path := "/unit-converter", color := "text-blue-600" },
  { key := categories.CURRENCY, title := "Currency Tools",
    desc := "Convert currencies with real-time rates.",
    icon := "FaDollarSign", path := "/currency-tools", color := "text-green-700" },
  { key := categories.TIMESTAMP, title := "Timestamp Tools",
    desc := "Convert and format timestamps.",
    icon := "FaClock", path := "/timestamp-tools", color := "text-orange-600" },
  { key := categories.AI, title := "AI Tools",
    desc := "AI-powered tools and generators.",
    icon := "FaRobot", path := "/ai-tools", color := "text-sky-500" },
  { key := categories.UX, title := "UX Tools",
    desc := "User experience design utilities.",
    icon := "FaDraftingCompass", path := "/ux-tools", color := "text-teal-600" },
  { key := categories.HTML, title := "HTML Tools",
    desc := "Validate, format, and edit HTML code.",
    icon := "FaHtml5", path := "/html-tools", color := "text-orange-500" },
  { key := categories.EMAIL, title := "Email Tools",
    desc := "Validate and generate emails.",
    icon := "FaEnvelope", path := "/email-tools", color := "text-blue-400" },
  { key := categories.FAVICON, title := "Favicon Tools",
    desc := "Generate and manage favicons.",
    icon := "FaIcons", path := "/favicon-tools", color := "text-violet-500" },
  { key := categories.JSON, title := "JSON Tools",
    desc := "Format, validate, and edit JSON data.",
    icon := "FaBracketsCurly", path := "/json-tools", color := "text-gray-900" },
  { key := categories.GIF, title := "GIF Tools",
    desc := "Create and optimize GIF animations.",
    icon := "FaFileImage", path := "/gif-tools", color := "text-pink-600" }]

/-- One element of a `UICategory`'s `tools` array: the minimal display
projection `{ id, slug, title, shortDescription, icon, path }` built by
`buildUICategories`. -/
structure UICatTool where
  id : String
  slug : String
  title : String
  shortDescription : String
  icon : String
  path : String
deriving DecidableEq, Repr

/-- `UICategory` (`tools.utils.ts` lines 32–34): a `CategoryMeta` (spread via
`...cat`) extended with its matching tools. -/
structure UICategory where
  key : String
  title : String
  desc : String
  icon : String
  path : String
  color : String
  tools : List UICatTool
deriving DecidableEq, Repr

/-- `buildUICategories` (`tools.utils.ts` lines 36–51), parametrised by the
registry:

```ts
const publicTools = getPublicTools();
return categoryMeta.map((cat) => ({
  ...cat,
  tools: publicTools
    .filter((t) => t.category === cat.key && !t.isHidden)
    .map((t) => ({ id: t.id, slug: t.slug, title: t.title,
                   shortDescription: t.shortDescription, icon: t.icon,
                   path: `/${t.slug}` })),
}));
``` -/
def buildUICategories {α β : Type} (tools : List (InternalToolConfig α β)) :
    List UICategory :=
  let publicTools := getPublicTools tools
  categoryMeta.map (fun cat =>
    { key := cat.key
      title := cat.title
      desc := cat.desc
      icon := cat.icon
      path := cat.path
      color := cat.color
      tools := (publicTools.filter
          (fun t => t.category == cat.key && !t.isHidden)).map
        (fun t =>
          { id := t.id
            slug := t.slug
            title := t.title
            shortDescription := t.shortDescription
            icon := t.icon
            path := "/" ++ t.slug }) })

/-! ## Registry construction (`src/lib/config/index.ts`) and descriptors
(`src/lib/config/text.tools.ts`) -/

/-- `export const tools = [...textTools, ...seoTools]`
(`src/lib/config/index.ts` lines 6–10): plain array concatenation of the
per-category tables, with no validation of any kind. -/
def mkTools {α β : Type} (textTools seoTools : List (InternalToolConfig α β)) :
    List (InternalToolConfig α β) :=
  textTools ++ seoTools

namespace templates

/-- The `templates` table (`src/lib/tools.ts` lines 6–14; the copy imported by
`config/text.tools.ts` from `./templates` is not in the tree but is referenced
only through this constant). -/
def TextToolTemplate : String := "TextToolTemplate"

end templates

/-- The `logicLoader` of the `case-converter` descriptor
(`config/text.tools.ts` line 13):

```ts
() => import('../../tools/textTools').then(m => ({ default: m.caseConverterLogic }))
```

The `tools/textTools` implementation module (`textToolsLogic.ts`) exports
`caseConverter`, `wordCounter`, `textSummarizer`, `textDiffChecker` and
`spellChecker` — it has no export named `caseConverterLogic` — so
`m.caseConverterLogic` is `undefined`.  The wrapper object
`{ default: undefined }` therefore has a nullish `default` property (the `??`
in `loadToolLogic` falls through it) and `Object.values` equal to
`[undefined]`. -/
def caseConverterLoader (α β : Type) : Loader α β :=
  fun _ => { defaultExport := none, values := [ModVal.nonfn] }

/-- The `logicLoader` of the `text-summarizer` descriptor
(`config/text.tools.ts` line 30):

```ts
() => import('../../tools/textTools').then(m => ({ default: m.textSummarizer }))
```

`textSummarizer` does exist in the module; its body (an async
first-sentences summariser) is never evaluated by any theorem below, so the
function itself is a parameter. -/
def textSummarizerLoader {α β : Type} (textSummarizer : α → β) : Loader α β :=
  fun _ => { defaultExport := some (ModVal.fn textSummarizer)
             values := [ModVal.fn textSummarizer] }

/-- `textTools` (`src/lib/config/text.tools.ts`), parametrised by the
`textSummarizer` implementation function (see `textSummarizerLoader`). -/
def textTools {α β : Type} (textSummarizer : α → β) :
    List (InternalToolConfig α β) := [
  { category := categories.TEXT
    slug := "case-converter"
    title := "Case Converter"
    shortDescription := "Convert text between upper/lower/camel case."
    icon := "FaFont"
    template := templates.TextToolTemplate
    logicLoader := caseConverterLoader α β
    props := [("resultType", "text")]
    keywords := ["text tools", "convert case", "upper lower camel"]
    id := "tool-case-converter"
    longDescription := "The Case Converter tool allows you to quickly change the case of your text. Whether you need to convert to uppercase for emphasis, lowercase for consistency, or camel case for programming, this tool has you covered. Simply paste your text, select the desired case format, and get instant results."
    tags := ["text", "conversion", "case"]
    isHidden := false
    isExperimental := false
    handlerPath := some "src/components/tools/CaseConverterTool.tsx" },
  { category := categories.TEXT
    slug := "text-summarizer"
    title := "Text Summarizer"
    shortDescription := "Generate concise summaries of long text."
    icon := "FaAlignJustify"
    template := templates.TextToolTemplate
    logicLoader := textSummarizerLoader textSummarizer
    props := [("resultType", "text")]
    keywords := ["text summarization", "summary", "condense text"]
    id := "tool-text-summarizer"
    longDescription := "The Text Summarizer tool helps you create concise and coherent summaries of lengthy articles, documents, or any block of text. By leveraging advanced algorithms, this tool extracts the most important information, allowing you to quickly grasp the main points without reading the entire content. Perfect for students, professionals, and anyone looking to save time."
    tags := ["text", "summarization", "summary"]
    isHidden := false
    isExperimental := false
    handlerPath := some "src/components/tools/TextSummarizerTool.tsx" }]

/-! ## Build-time public export (`scripts/build-tools-public.ts`) -/

/-- `ToolPublic` from `scripts/build-tools-public.ts`: the exact record shape
of the static JSON artifact — fields `id`, `title`, `slug`, `category`,
`shortDescription`, `tags` and nothing else. -/
structure ToolPublic where
  id : String
  title : String
  slug : String
  category : String
  shortDescription : String
  tags : List String
deriving DecidableEq, Repr

/-- `publicIndex` (`scripts/build-tools-public.ts` lines 15–24), parametrised
by the registry:

```ts
const publicIndex: ToolPublic[] = tools
  .filter(t => !t.isHidden) // hide internal/experimental
  .map(t => ({ id: t.id, title: t.title, slug: t.slug, category: t.category,
               shortDescription: t.shortDescription, tags: t.tags }));
```

`toToolPublic` is the `.map` body; `buildPublicIndex` is the whole pipeline. -/
def toToolPublic {α β : Type} (t : InternalToolConfig α β) : ToolPublic :=
  { id := t.id
    title := t.title
    slug := t.slug
    category := t.category
    shortDescription := t.shortDescription
    tags := t.tags }

def buildPublicIndex {α β : Type} (tools : List (InternalToolConfig α β)) :
    List ToolPublic :=
  (tools.filter (fun t => !t.isHidden)).map toToolPublic

/-! ## Operation sequences over the shared cache

`_logicCache` is module-level state shared by every `loadToolLogic` /
`runTool` call; `getPublicTools` and `buildUICategories` do not so much as
mention it (they are pure functions of the registry).  A process lifetime is
a sequence of dispatcher calls threaded through the cache. -/

/-- One dispatcher call: either a `runTool(slug, args)` call or a direct
`loadToolLogic(tool)` call (both functions are exported). -/
inductive DispatchOp (α β : Type) where
  | run (slug : String) (args : α)
  | load (tool : InternalToolConfig α β)

/-- The cache after one dispatcher call. -/
def stepCache {α β : Type} (tools : List (InternalToolConfig α β))
    (c : Cache α β) : DispatchOp α β → Cache α β
  | DispatchOp.run slug args => (runTool tools slug args c).2.1
  | DispatchOp.load tool => (loadToolLogic tool c).2.1

/-- The cache after a sequence of dispatcher calls. -/
def runOps {α β : Type} (tools : List (InternalToolConfig α β))
    (c : Cache α β) (ops : List (DispatchOp α β)) : Cache α β :=
  ops.foldl (stepCache tools) c

/-- Cache well-formedness: at most one entry per tool id. -/
def cacheWF {α β : Type} (c : Cache α β) : Prop :=
  (c.map Prod.fst).Nodup

/-! ## Concrete test fixtures

Stub descriptors in the spirit of the specification's load-counting stub
loaders; they are inputs for instantiating the theorems below at concrete
values, not translations of repository code. -/

/-- A descriptor whose loader yields a module with callable default export
`Nat.succ`; flagged neither hidden nor experimental. -/
def stubOkTool : InternalToolConfig Nat Nat :=
  { category := categories.TEXT
    slug := "stub-ok"
    title := "Stub Ok"
    shortDescription := "stub"
    icon := "FaFont"
    template := templates.TextToolTemplate
    logicLoader := fun _ =>
      { defaultExport := some (ModVal.fn Nat.succ)
        values := [ModVal.fn Nat.succ] }
    id := "tool-stub-ok" }

/-- A descriptor whose loader yields a module whose default export is a
non-callable value. -/
def stubNoCallableTool : InternalToolConfig Nat Nat :=
  { category := categories.TEXT
    slug := "stub-none"
    title := "Stub None"
    shortDescription := "stub"
    icon := "FaFont"
    template := templates.TextToolTemplate
    logicLoader := fun _ =>
      { defaultExport := some ModVal.nonfn
        values := [ModVal.nonfn] }
    id := "tool-stub-none" }

/-- A well-loaded descriptor with `isHidden := true`. -/
def hiddenTool : InternalToolConfig Nat Nat :=
  { category := categories.SEO
    slug := "hidden-tool"
    title := "Hidden Tool"
    shortDescription := "hidden"
    icon := "FaSearch"
    template := templates.TextToolTemplate
    logicLoader := fun _ =>
      { defaultExport := some (ModVal.fn Nat.succ)
        values := [ModVal.fn Nat.succ] }
    id := "tool-hidden"
    tags := ["hidden"]
    isHidden := true }

/-- First of two descriptors sharing the slug `dup-slug`. -/
def dupToolA : InternalToolConfig Nat Nat :=
  { category := categories.TEXT
    slug := "dup-slug"
    title := "Dup A"
    shortDescription := "first duplicate"
    icon := "FaFont"
    template := templates.TextToolTemplate
    logicLoader := fun _ =>
      { defaultExport := some (ModVal.fn (fun _ => 1))
        values := [ModVal.fn (fun _ => 1)] }
    id := "tool-dup-a" }

/-- Second of two descriptors sharing the slug `dup-slug`. -/
def dupToolB : InternalToolConfig Nat Nat :=
  { category := categories.TEXT
    slug := "dup-slug"
    title := "Dup B"
    shortDescription := "second duplicate"
    icon := "FaFont"
    template := templates.TextToolTemplate
    logicLoader := fun _ =>
      { defaultExport := some (ModVal.fn (fun _ => 2))
        values := [ModVal.fn (fun _ => 2)] }
    id := "tool-dup-b" }

/-! ## Helper lemmas -/

lemma cacheGet_eq_none_iff {α β : Type} (c : Cache α β) (id : String) :
    cacheGet c id = none ↔ ∀ e ∈ c, e.1 ≠ id := by
  unfold cacheGet
  rw [Option.map_eq_none', List.find?_eq_none]
  constructor <;> intro h e he <;> simpa using h e he

lemma cacheSet_absent {α β : Type} {c : Cache α β} {id : String} (f : α → β)
    (h : ∀ e ∈ c, e.1 ≠ id) : cacheSet c id f = c ++ [(id, f)] := by
  unfold cacheSet
  have hany : c.any (fun e => e.1 == id) = false := by
    simp only [List.any_eq_false]
    intro e he
    simpa using h e he
  simp [hany]

lemma cacheGet_of_mem_wf {α β : Type} {c : Cache α β} {id : String} {f : α → β}
    (hwf : cacheWF c) (hmem : (id, f) ∈ c) : cacheGet c id = some f := by
  induction c with
  | nil => cases hmem
  | cons e rest ih =>
    rcases List.mem_cons.mp hmem with he | hrest
    · subst he
      simp [cacheGet, List.find?_cons_of_pos]
    · have hwf' : cacheWF rest := (List.nodup_cons.mp hwf).2
      have hid : e.1 ≠ id := by
        intro hcontra
        exact (List.nodup_cons.mp hwf).1
          (hcontra ▸ List.mem_map.mpr ⟨(id, f), hrest, rfl⟩)
      have hrec := ih hwf' hrest
      unfold cacheGet at hrec ⊢
      rw [List.find?_cons_of_neg _ (by simpa using hid)]
      exact hrec

lemma wf_append {α β : Type} {c : Cache α β} {id : String} (f : α → β)
    (hwf : cacheWF c) (habs : ∀ e ∈ c, e.1 ≠ id) : cacheWF (c ++ [(id, f)]) := by
  unfold cacheWF at hwf ⊢
  rw [List.map_append]
  refine List.Nodup.append hwf (by simp) ?_
  intro x hx hy
  simp only [List.map_cons, List.map_nil, List.mem_singleton] at hy
  rcases List.mem_map.mp hx with ⟨e, he, rfl⟩
  exact habs e he (hy ▸ rfl)

lemma loadToolLogic_cache_cases {α β : Type} (tool : InternalToolConfig α β)
    (c : Cache α β) :
    (loadToolLogic tool c).2.1 = c ∨
      ∃ f, cacheGet c tool.id = none ∧
        (loadToolLogic tool c).2.1 = c ++ [(tool.id, f)] := by
  unfold loadToolLogic
  rcases hget : cacheGet c tool.id with _ | f
  · rcases hext : extractLogic (tool.logicLoader ()) with _ | v
    · left; simp [hget, hext]
    · cases v with
      | fn f =>
        right
        refine ⟨f, rfl, ?_⟩
        have habs := (cacheGet_eq_none_iff c tool.id).mp hget
        simp [hget, hext, cacheSet_absent f habs]
      | nonfn => left; simp [hget, hext]
  · left; simp [hget]

lemma stepCache_cases {α β : Type} (tools : List (InternalToolConfig α β))
    (c : Cache α β) (op : DispatchOp α β) :
    stepCache tools c op = c ∨
      ∃ id f, cacheGet c id = none ∧ stepCache tools c op = c ++ [(id, f)] := by
  cases op with
  | load tool =>
    rcases loadToolLogic_cache_cases tool c with h | ⟨f, hget, h⟩
    · left; simpa [stepCache] using h
    · right; exact ⟨tool.id, f, hget, by simpa [stepCache] using h⟩
  | run slug args =>
    show (runTool tools slug args c).2.1 = c ∨ _
    rcases hfind : tools.find? (fun t => t.slug == slug) with _ | tool
    · left; simp [runTool, hfind]
    · rcases hload : loadToolLogic tool c with ⟨res, c2, n⟩
      have hc2 : c2 = (loadToolLogic tool c).2.1 := by rw [hload]
      rcases loadToolLogic_cache_cases tool c with h | ⟨f, hget, h⟩
      · left
        have hcc : c2 = c := hc2.trans h
        cases res <;> simp [runTool, hfind, hload, hcc]
      · right
        refine ⟨tool.id, f, hget, ?_⟩
        have hcc : c2 = c ++ [(tool.id, f)] := hc2.trans h
        show (runTool tools slug args c).2.1 = _
        cases res <;> simp [runTool, hfind, hload, hcc]

lemma stepCache_preserves {α β : Type} (tools : List (InternalToolConfig α β))
    (c : Cache α β) (op : DispatchOp α β) (hwf : cacheWF c) :
    cacheWF (stepCache tools c op) ∧ ∀ e ∈ c, e ∈ stepCache tools c op := by
  rcases stepCache_cases tools c op with h | ⟨id, f, hget, h⟩
  · rw [h]; exact ⟨hwf, fun e he => he⟩
  · rw [h]
    have habs := (cacheGet_eq_none_iff c id).mp hget
    exact ⟨wf_append f hwf habs, fun e he => List.mem_append_left _ he⟩

lemma runOps_preserves {α β : Type} (tools : List (InternalToolConfig α β))
    (ops : List (DispatchOp α β)) :
    ∀ c : Cache α β, cacheWF c →
      cacheWF (runOps tools c ops) ∧ ∀ e ∈ c, e ∈ runOps tools c ops := by
  induction ops with
  | nil => exact fun c hwf => ⟨hwf, fun e he => he⟩
  | cons op rest ih =>
    intro c hwf
    have hstep := stepCache_preserves tools c op hwf
    have hrec := ih (stepCache tools c op) hstep.1
    refine ⟨by simpa [runOps] using hrec.1, fun e he => ?_⟩
    have := hrec.2 e (hstep.2 e he)
    simpa [runOps] using this

lemma find?_append_first {α β : Type} {p : InternalToolConfig α β → Bool}
    {pre post : List (InternalToolConfig α β)} {t : InternalToolConfig α β}
    (hpre : ∀ u ∈ pre, p u = false) (ht : p t = true) :
    (pre ++ t :: post).find? p = some t := by
  induction pre with
  | nil => simpa using List.find?_cons_of_pos _ ht
  | cons u rest ih =>
    have hu : p u = false := hpre u (List.mem_cons_self u rest)
    rw [List.cons_append, List.find?_cons_of_neg _ (by simp [hu])]
    exact ih (fun v hv => hpre v (List.mem_cons_of_mem u hv))

/-! ## Claim theorems -/

/-- Claim C1: the specification asserts that `runTool("case-converter", ...)`
called twice returns consistent results with at most one `logicLoader`
invocation, the second call served from the resolved-logic cache.  On the
code as written this fails: the case-converter descriptor's loader wraps the
nonexistent export `m.caseConverterLogic` (the module exports
`caseConverter`), so for every choice of the summariser implementation, of
the rest of the registry and of the call arguments, both calls throw
`Tool logic not found for tool-case-converter`, nothing is ever cached, and
the loader is invoked once by each call (twice across the two calls). -/
theorem caseConverter_descriptor_bug {α β : Type} (ts : α → β)
    (rest : List (InternalToolConfig α β)) (args args2 : α) :
    runTool (mkTools (textTools ts) rest) "case-converter" args [] =
      (Except.error "Tool logic not found for tool-case-converter", [], 1) ∧
    runTool (mkTools (textTools ts) rest) "case-converter" args2
        ((runTool (mkTools (textTools ts) rest) "case-converter" args []).2.1) =
      (Except.error "Tool logic not found for tool-case-converter", [], 1) := by
  constructor <;>
    simp [mkTools, textTools, runTool, loadToolLogic, cacheGet, extractLogic,
      caseConverterLoader]

/-- Claim C2: for every slug matching no descriptor, the lookup resolves no
descriptor and `runTool` fails with the `Tool not found` error carrying the
requested slug, performs no loader invocation, and returns the resolved-logic
cache exactly as it was (no entry added, removed or modified). -/
theorem runTool_toolNotFound {α β : Type} (tools : List (InternalToolConfig α β))
    (slug : String) (args : α) (c : Cache α β)
    (h : ∀ t ∈ tools, t.slug ≠ slug) :
    tools.find? (fun t => t.slug == slug) = none ∧
    runTool tools slug args c = (Except.error ("Tool not found: " ++ slug), c, 0) := by
  have hfind : tools.find? (fun t => t.slug == slug) = none :=
    List.find?_eq_none.mpr (fun t ht => by simpa using h t ht)
  exact ⟨hfind, by simp [runTool, hfind]⟩

/-- Witness for C2 at the concrete registry `textTools id` and the slug
`does-not-exist` of the specification's test, from a nonempty cache. -/
theorem runTool_toolNotFound_witness :
    (textTools (fun n : Nat => n)).find? (fun t => t.slug == "does-not-exist") = none ∧
    runTool (textTools (fun n : Nat => n)) "does-not-exist" 0 [("tool-x", Nat.succ)] =
      (Except.error "Tool not found: does-not-exist", [("tool-x", Nat.succ)], 0) := by
  have h := runTool_toolNotFound (textTools (fun n : Nat => n)) "does-not-exist" 0
    [("tool-x", Nat.succ)] (by intro t ht; fin_cases ht <;> decide)
  simpa using h

/-- Claim C3: for a descriptor whose loader resolves to a module-like object,
the dispatcher extracts the callable preferring the (non-nullish) default
export and otherwise taking the first enumerable exported value; when the
extracted value is not callable, `runTool` fails with the
`Tool logic not found` error naming the tool id, stores nothing in the
resolved-logic cache, and a subsequent call for the same slug re-attempts
loading (it performs a fresh loader invocation and fails the same way). -/
theorem runTool_toolLogicMissing {α β : Type}
    (tools : List (InternalToolConfig α β)) (slug : String)
    (t : InternalToolConfig α β) (args : α) (c : Cache α β)
    (hfind : tools.find? (fun u => u.slug == slug) = some t)
    (hcache : cacheGet c t.id = none)
    (hnofn : ∀ f : α → β, extractLogic (t.logicLoader ()) ≠ some (ModVal.fn f)) :
    (∀ (mod : JSModule α β) (v : ModVal α β),
      mod.defaultExport = some v → extractLogic mod = some v) ∧
    (∀ mod : JSModule α β,
      mod.defaultExport = none → extractLogic mod = mod.values.head?) ∧
    runTool tools slug args c =
      (Except.error ("Tool logic not found for " ++ t.id), c, 1) ∧
    runTool tools slug args ((runTool tools slug args c).2.1) =
      (Except.error ("Tool logic not found for " ++ t.id), c, 1) := by
  have hload : loadToolLogic t c =
      (Except.error ("Tool logic not found for " ++ t.id), c, 1) := by
    rcases hext : extractLogic (t.logicLoader ()) with _ | v
    · simp [loadToolLogic, hcache, hext]
    · cases v with
      | fn f => exact absurd hext (hnofn f)
      | nonfn => simp [loadToolLogic, hcache, hext]
  refine ⟨fun mod v hv => by simp [extractLogic, hv],
    fun mod hv => by simp [extractLogic, hv], ?_, ?_⟩
  · simp [runTool, hfind, hload]
  · simp [runTool, hfind, hload]

/-- Witness for C3: a registry whose second descriptor loads a module with a
non-callable default export; `runTool` fails naming the tool id, caches
nothing, and counts one loader invocation. -/
theorem runTool_toolLogicMissing_witness :
    runTool [stubOkTool, stubNoCallableTool] "stub-none" 5 [] =
      (Except.error "Tool logic not found for tool-stub-none", [], 1) := by
  have h := runTool_toolLogicMissing [stubOkTool, stubNoCallableTool] "stub-none"
    stubNoCallableTool 5 []
    (by simp [stubOkTool, stubNoCallableTool])
    rfl
    (by intro f hf; simp [stubNoCallableTool, extractLogic] at hf)
  simpa [stubNoCallableTool] using h.2.2.1

/-- Claim C4: the resolved-logic cache holds at most one entry per tool id,
and every sequence of `runTool` / `loadToolLogic` calls is append-only: an
existing entry is never removed, never rebound, and lookups of an existing
id keep returning the originally cached function for the whole sequence. -/
theorem logicCache_append_only {α β : Type}
    (tools : List (InternalToolConfig α β)) (ops : List (DispatchOp α β))
    (c0 : Cache α β) (hwf : cacheWF c0) :
    cacheWF (runOps tools c0 ops) ∧
    (∀ (id : String) (f : α → β), (id, f) ∈ c0 → (id, f) ∈ runOps tools c0 ops) ∧
    (∀ (id : String) (f : α → β), (id, f) ∈ c0 →
      cacheGet (runOps tools c0 ops) id = some f) := by
  have h := runOps_preserves tools ops c0 hwf
  exact ⟨h.1, fun id f hm => h.2 _ hm,
    fun id f hm => cacheGet_of_mem_wf h.1 (h.2 _ hm)⟩

/-- Witness for C4: a seeded one-entry cache survives a dispatcher call that
adds a second entry; the seed is still present and still looked up. -/
theorem logicCache_append_only_witness :
    cacheWF (runOps [stubOkTool] [("tool-seed", Nat.succ)]
      [DispatchOp.run "stub-ok" 0]) ∧
    ("tool-seed", Nat.succ) ∈ runOps [stubOkTool] [("tool-seed", Nat.succ)]
      [DispatchOp.run "stub-ok" 0] ∧
    cacheGet (runOps [stubOkTool] [("tool-seed", Nat.succ)]
      [DispatchOp.run "stub-ok" 0]) "tool-seed" = some Nat.succ := by
  have h := logicCache_append_only [stubOkTool] [DispatchOp.run "stub-ok" 0]
    [("tool-seed", Nat.succ)] (by simp [cacheWF])
  exact ⟨h.1, h.2.1 _ _ (by simp), h.2.2 _ _ (by simp)⟩

/-- Claim C5: `getPublicTools` returns exactly one public projection per
registry descriptor, in source order, with no visibility filtering (element
`i` of the output is the projection of descriptor `i`, hidden or
experimental alike), and its output carries no trace of the four stripped
internal-only fields: the projection is unchanged under any replacement of
`logicLoader`, `synonyms`, `handlerPath` and `analyticsKey` (and its result
type has no such fields). -/
theorem getPublicTools_spec {α β : Type} (tools : List (InternalToolConfig α β)) :
    (getPublicTools tools).length = tools.length ∧
    (∀ i : Nat, (getPublicTools tools).get? i = (tools.get? i).map toPublicToolConfig) ∧
    (∀ (t : InternalToolConfig α β) (L : Loader α β) (s : Option (List String))
      (hp ak : Option String),
      toPublicToolConfig
        { t with
          logicLoader := L
          synonyms := s
          handlerPath := hp
          analyticsKey := ak } = toPublicToolConfig t) := by
  exact ⟨by simp [getPublicTools], fun i => by simp [getPublicTools, List.get?_eq_getElem?],
    fun t L s hp ak => rfl⟩

/-- Claim C6: `buildUICategories` returns one entry per `categoryMeta` record
in table order (also for categories with zero matching tools, which get an
empty list); entry `i` extends `categoryMeta[i]` with exactly the registry's
non-hidden tools of that category, in registry order, projected to
id/slug/title/shortDescription/icon plus the derived path `/slug`. -/
theorem buildUICategories_spec {α β : Type} (tools : List (InternalToolConfig α β)) :
    (buildUICategories tools).length = categoryMeta.length ∧
    (∀ i : Nat, (buildUICategories tools).get? i = (categoryMeta.get? i).map
      (fun cat =>
        { key := cat.key, title := cat.title, desc := cat.desc, icon := cat.icon,
          path := cat.path, color := cat.color,
          tools := (tools.filter
              (fun t => t.category == cat.key && !t.isHidden)).map
            (fun t =>
              { id := t.id, slug := t.slug, title := t.title,
                shortDescription := t.shortDescription, icon := t.icon,
                path := "/" ++ t.slug }) })) ∧
    (∀ ucat ∈ buildUICategories tools, ∀ x ∈ ucat.tools, x.path = "/" ++ x.slug) := by
  have hmain : buildUICategories tools = categoryMeta.map (fun cat =>
      ({ key := cat.key, title := cat.title, desc := cat.desc, icon := cat.icon,
         path := cat.path, color := cat.color,
         tools := (tools.filter
             (fun t => t.category == cat.key && !t.isHidden)).map
           (fun t =>
             { id := t.id, slug := t.slug, title := t.title,
               shortDescription := t.shortDescription, icon := t.icon,
               path := "/" ++ t.slug }) } : UICategory)) := by
    unfold buildUICategories getPublicTools
    refine List.map_congr_left (fun cat _ => ?_)
    congr 1
    rw [List.filter_map, List.map_map]
    rfl
  refine ⟨by rw [hmain]; simp, fun i => by rw [hmain]; simp [List.get?_eq_getElem?], ?_⟩
  intro ucat hu x hx
  rw [hmain] at hu
  rcases List.mem_map.mp hu with ⟨cat, _, rfl⟩
  simp only at hx
  rcases List.mem_map.mp hx with ⟨t, _, rfl⟩
  rfl

/-- Counterexample to claim C7: registry construction is plain concatenation
with no uniqueness check, so a registry holding two descriptors with the
same slug is constructed successfully — both descriptors are present and the
slug list is not duplicate-free — rather than failing with a configuration
error. -/
theorem mkTools_duplicate_not_rejected :
    (mkTools [dupToolA] [dupToolB]).map (fun t => t.slug) =
      ["dup-slug", "dup-slug"] ∧
    ¬ ((mkTools [dupToolA] [dupToolB]).map (fun t => t.slug)).Nodup := by
  exact ⟨rfl, by decide⟩

/-- Claim C7 as amended: within the in-tree `textTools` table slugs are
pairwise distinct, but `mkTools` (the `[...textTools, ...seoTools]`
construction) performs no duplicate-slug rejection: it is total, keeps every
descriptor of both inputs (lengths add, membership is preserved), and
therefore silently relies on find-first-match shadowing instead of failing
at registration time. -/
theorem registry_construction_unchecked {α β : Type} (ts : α → β)
    (a b : List (InternalToolConfig α β)) :
    ((textTools ts).map (fun t => t.slug)).Nodup ∧
    (mkTools a b).length = a.length + b.length ∧
    (∀ t : InternalToolConfig α β, t ∈ mkTools a b ↔ t ∈ a ∨ t ∈ b) := by
  refine ⟨?_, by simp [mkTools], fun t => by simp [mkTools]⟩
  show (["case-converter", "text-summarizer"] : List String).Nodup
  decide

/-- Claim C8: with duplicate slugs in the registry, `runTool` resolves the
earliest-registered matching descriptor (`Array.prototype.find` order): the
lookup returns the first match, and the call's outcome is entirely
independent of whatever descriptors sit after it — a later descriptor with a
colliding slug is never selected. -/
theorem runTool_first_match {α β : Type} (pre post : List (InternalToolConfig α β))
    (t : InternalToolConfig α β) (args : α) (c : Cache α β)
    (hpre : ∀ u ∈ pre, u.slug ≠ t.slug) :
    ((pre ++ t :: post).find? (fun u => u.slug == t.slug) = some t) ∧
    (∀ post', runTool (pre ++ t :: post') t.slug args c =
      runTool (pre ++ t :: post) t.slug args c) := by
  have hfind : ∀ post' : List (InternalToolConfig α β),
      (pre ++ t :: post').find? (fun u => u.slug == t.slug) = some t :=
    fun post' => find?_append_first (fun u hu => by simpa using hpre u hu) (by simp)
  exact ⟨hfind post, fun post' => by simp [runTool, hfind post', hfind post]⟩

/-- Witness for C8 on two colliding descriptors: the first one is resolved
and the second is irrelevant to the outcome. -/
theorem runTool_first_match_witness :
    (([] ++ dupToolA :: [dupToolB]).find? (fun u => u.slug == dupToolA.slug) =
      some dupToolA) ∧
    runTool ([] ++ dupToolA :: []) dupToolA.slug 0 [] =
      runTool ([] ++ dupToolA :: [dupToolB]) dupToolA.slug 0 [] := by
  have h := runTool_first_match [] [dupToolB] dupToolA 0 [] (by simp)
  exact ⟨h.1, h.2 []⟩

/-- Counterexample to claim C9: the build-time export step does not write a
record for every tool of the public tool list — `getPublicTools` projects
hidden descriptors too, but the export filters on `isHidden`, so a hidden
descriptor has a public projection yet no JSON record. -/
theorem publicIndex_omits_hidden_tool :
    (getPublicTools [hiddenTool]).length = 1 ∧
    buildPublicIndex [hiddenTool] = [] := by
  exact ⟨rfl, rfl⟩

/-- Claim C9 as amended: the export step writes one JSON record for every
non-hidden tool of the registry, in registry order, and each record has
exactly the fields id, title, slug, category, shortDescription, tags: each
field equals the source descriptor's field, and the record is fully
determined by those six fields alone. -/
theorem buildPublicIndex_spec {α β : Type} (tools : List (InternalToolConfig α β)) :
    (buildPublicIndex tools).length = (tools.filter (fun t => !t.isHidden)).length ∧
    (∀ i : Nat, (buildPublicIndex tools).get? i =
      ((tools.filter (fun t => !t.isHidden)).get? i).map toToolPublic) ∧
    (∀ t : InternalToolConfig α β,
      (toToolPublic t).id = t.id ∧ (toToolPublic t).title = t.title ∧
      (toToolPublic t).slug = t.slug ∧ (toToolPublic t).category = t.category ∧
      (toToolPublic t).shortDescription = t.shortDescription ∧
      (toToolPublic t).tags = t.tags) ∧
    (∀ t u : InternalToolConfig α β, t.id = u.id → t.title = u.title →
      t.slug = u.slug → t.category = u.category →
      t.shortDescription = u.shortDescription → t.tags = u.tags →
      toToolPublic t = toToolPublic u) := by
  refine ⟨by simp [buildPublicIndex], fun i => by simp [buildPublicIndex, List.get?_eq_getElem?],
    fun t => ⟨rfl, rfl, rfl, rfl, rfl, rfl⟩,
    fun t u h1 h2 h3 h4 h5 h6 => ?_⟩
  simp [toToolPublic, h1, h2, h3, h4, h5, h6]

/-- Witness for C9 (amended): two descriptors agreeing on the six exported
fields but differing elsewhere produce the same record, and on the concrete
`textTools` registry the artifact has one record per non-hidden tool. -/
theorem buildPublicIndex_spec_witness :
    toToolPublic { hiddenTool with isHidden := false } = toToolPublic hiddenTool ∧
    (buildPublicIndex (textTools (fun n : Nat => n))).length =
      ((textTools (fun n : Nat => n)).filter (fun t => !t.isHidden)).length := by
  have h := buildPublicIndex_spec (textTools (fun n : Nat => n))
  exact ⟨h.2.2.2 { hiddenTool with isHidden := false } hiddenTool
    rfl rfl rfl rfl rfl rfl, h.1⟩

/-- Claim C10: dispatch never consults the visibility flags — for arbitrary
values of `isHidden` and `isExperimental` on the resolved descriptor,
`runTool` still resolves it, invokes its loaded logic on the supplied
arguments and caches the function, so a hidden or experimental tool is
executable by anyone who knows its slug. -/
theorem runTool_ignores_visibility {α β : Type}
    (pre post : List (InternalToolConfig α β)) (t : InternalToolConfig α β)
    (hidden experimental : Bool) (f : α → β) (args : α) (c : Cache α β)
    (hpre : ∀ u ∈ pre, u.slug ≠ t.slug)
    (hcache : cacheGet c t.id = none)
    (hload : extractLogic (t.logicLoader ()) = some (ModVal.fn f)) :
    runTool (pre ++ ({ t with isHidden := hidden, isExperimental := experimental }) :: post) t.slug args c =
      (Except.ok (f args), cacheSet c t.id f, 1) := by
  have hfind : (pre ++ ({ t with isHidden := hidden, isExperimental := experimental }) :: post).find?
        (fun u => u.slug == t.slug) =
      some { t with isHidden := hidden, isExperimental := experimental } :=
    find?_append_first (fun u hu => by simpa using hpre u hu) (by simp)
  have hll : loadToolLogic
      ({ t with isHidden := hidden, isExperimental := experimental }) c =
      (Except.ok f, cacheSet c t.id f, 1) := by
    simp [loadToolLogic, hcache, hload]
  simp [runTool, hfind, hll]

/-- Witness for C10: a descriptor flagged both hidden and experimental is
dispatched and its logic invoked. -/
theorem runTool_ignores_visibility_witness :
    runTool ([] ++ ({ stubOkTool with isHidden := true, isExperimental := true }) :: []) stubOkTool.slug 0 [] =
      (Except.ok (Nat.succ 0), cacheSet [] stubOkTool.id Nat.succ, 1) := by
  exact runTool_ignores_visibility [] [] stubOkTool true true Nat.succ 0 []
    (by simp) rfl rfl

end ToolSuite
